import Mathlib

/-!
Verification of the natural-language specification of the Apache Superset
excerpt consisting of `superset/config.py`,
`superset/db_engine_specs/impala.py` and `superset/db_engine_specs/mssql.py`.

The development shallowly embeds the Python code of those three files:
pure fragments become Lean functions, the Impala cursor polling loop becomes
a fuel-indexed state-stepping function that records a trace of observable
events, and Python regular-expression dispatch is embedded through a small
executable backtracking matcher applied to the concrete patterns that appear
in the source.  Machine-level concerns do not arise: all the quantities
involved are small non-negative integers and strings.

Conventions:
- Python `None` becomes `Option.none`; a fallible call becomes a value of
  `PyResult`.
- Characters and strings are modelled over Lean `Char`/`String`; the ASCII
  fragment is the only one exercised by the source under scrutiny.
- Apostrophes inside SQL string literals are written with the `\x27`
  escape; this denotes exactly the apostrophe character.
-/

/-- Result of a Python call that can raise: either a normal value or a
raised exception (the exception object itself is irrelevant here). -/
inductive PyResult (α : Type) where
  | raised
  | ok (val : α)
deriving DecidableEq, Repr

/-- Python `s.startswith(pre)`, modelled on the underlying character list. -/
def pyStartsWith (s pre : String) : Bool :=
  pre.toList.isPrefixOf s.toList

/-- A cased character in the ASCII fragment: a letter. -/
def pyIsCased (c : Char) : Bool :=
  c.isAlpha

/-- Python `s.isupper()`: at least one cased character, and every cased
character is uppercase (ASCII model). -/
def pyIsupper (s : String) : Bool :=
  s.toList.any pyIsCased && s.toList.all (fun c => !c.isAlpha || c.isUpper)

/-- A word character for the regex class `\w` (ASCII model):
letters, digits and the underscore. -/
def pyIsWordChar (c : Char) : Bool :=
  c.isAlphanum || c == '_'

/-!
## Configuration override hook (`superset/config.py`, final block)

`config.py` ends with a late-binding import hook.  When the environment
variable `SUPERSET_CONFIG_PATH` names a loadable file, the file is executed
as a module and every name `key` of that module with `key.isupper()` is
copied onto the config module by `setattr(module, key, ...)`.  Otherwise,
when a module named `superset_config` is importable, the hook performs
`from superset_config import *`, which copies every public name (every name
that does not start with an underscore, the module defining no `__all__`).

A module namespace is modelled as a partial map from names to values, an
override module as an association list of the names it defines (`dir`
enumerates each name once).
-/

/-- The `SUPERSET_CONFIG_PATH` branch of the override hook: for every name
defined by the override module, if the name satisfies Python `isupper` the
override value is assigned over the default; all other names are left
untouched. -/
def applyConfigPathOverride {V : Type} (base : String → Option V)
    (ov : List (String × V)) : String → Option V :=
  fun name =>
    match ov.lookup name with
    | some v => if pyIsupper name then some v else base name
    | none => base name

/-- Modelled from the spec: the `superset_config` fallback branch performs a
Python star import, absent from `src/` only in the sense that the copying is
done by the interpreter itself.  With no `__all__` declared, a star import
copies every name that does not start with an underscore. -/
def applyModuleStarImport {V : Type} (base : String → Option V)
    (ov : List (String × V)) : String → Option V :=
  fun name =>
    match ov.lookup name with
    | some v => if pyStartsWith name "_" then base name else some v
    | none => base name

/-!
## Feature flags (`superset/config.py`, `DEFAULT_FEATURE_FLAGS`)
-/

/-- The in-module defaults of `DEFAULT_FEATURE_FLAGS`, transcribed in source
order. -/
def DEFAULT_FEATURE_FLAGS : List (String × Bool) :=
  [ ("DRUID_JOINS", false)
  , ("DYNAMIC_PLUGINS", false)
  , ("ENABLE_TEMPLATE_PROCESSING", false)
  , ("ENABLE_JAVASCRIPT_CONTROLS", false)
  , ("PRESTO_EXPAND_DATA", false)
  , ("THUMBNAILS", false)
  , ("ENABLE_DASHBOARD_SCREENSHOT_ENDPOINTS", false)
  , ("ENABLE_DASHBOARD_DOWNLOAD_WEBDRIVER_SCREENSHOT", false)
  , ("TAGGING_SYSTEM", false)
  , ("SQLLAB_BACKEND_PERSISTENCE", true)
  , ("LISTVIEWS_DEFAULT_CARD_VIEW", false)
  , ("ESCAPE_MARKDOWN_HTML", false)
  , ("DASHBOARD_VIRTUALIZATION", true)
  , ("GLOBAL_ASYNC_QUERIES", false)
  , ("EMBEDDED_SUPERSET", false)
  , ("ALERT_REPORTS", false)
  , ("ALERT_REPORT_TABS", false)
  , ("ALERT_REPORT_SLACK_V2", false)
  , ("DASHBOARD_RBAC", false)
  , ("ENABLE_ADVANCED_DATA_TYPES", false)
  , ("ALERTS_ATTACH_REPORTS", true)
  , ("ALLOW_FULL_CSV_EXPORT", false)
  , ("ALLOW_ADHOC_SUBQUERY", false)
  , ("USE_ANALOGOUS_COLORS", false)
  , ("RLS_IN_SQLLAB", false)
  , ("OPTIMIZE_SQL", false)
  , ("IMPERSONATE_WITH_EMAIL_PREFIX", false)
  , ("CACHE_IMPERSONATION", false)
  , ("CACHE_QUERY_BY_USER", false)
  , ("EMBEDDABLE_CHARTS", true)
  , ("DRILL_TO_DETAIL", true)
  , ("DRILL_BY", true)
  , ("DATAPANEL_CLOSED_BY_DEFAULT", false)
  , ("FILTERBAR_CLOSED_BY_DEFAULT", false)
  , ("ESTIMATE_QUERY_COST", false)
  , ("SSH_TUNNELING", false)
  , ("AVOID_COLORS_COLLISION", true)
  , ("MENU_HIDE_USER_INFO", false)
  , ("ENABLE_SUPERSET_META_DB", false)
  , ("PLAYWRIGHT_REPORTS_AND_THUMBNAILS", false)
  , ("CHART_PLUGINS_EXPERIMENTAL", false)
  , ("SQLLAB_FORCE_RUN_ASYNC", false)
  , ("ENABLE_FACTORY_RESET_COMMAND", false)
  , ("SLACK_ENABLE_AVATARS", false)
  , ("CSS_TEMPLATES", true)
  , ("DATE_FORMAT_IN_EMAIL_SUBJECT", false)
  , ("DATASET_FOLDERS", false)
  , ("AG_GRID_TABLE_ENABLED", false)
  , ("TABLE_V2_TIME_COMPARISON_ENABLED", false)
  ]

/-- The condition of the dict comprehension guard
`re.search(r"^SUPERSET_FEATURE_\w+", k)`: the key starts with the 17
characters `SUPERSET_FEATURE_` followed by at least one word character. -/
def featureEnvKeyMatches (k : String) : Bool :=
  "SUPERSET_FEATURE_".toList.isPrefixOf k.toList &&
    (match k.toList.drop 17 with
     | [] => false
     | c :: _ => pyIsWordChar c)

/-- Python `k[len("SUPERSET_FEATURE_"):]`, the key with its first 17
characters removed. -/
def stripFeatureEnvKey (k : String) : String :=
  String.mk (k.toList.drop 17)

/-- The dict comprehension
`{k[len("SUPERSET_FEATURE_"):]: parse_boolean_string(v) for k, v in
os.environ.items() if re.search(r"^SUPERSET_FEATURE_\w+", k)}`.
`parse_boolean_string` lives in `superset/utils/core.py`, outside the
excerpt, and is taken as an abstract function. -/
def featureEnvOverrides (environ : List (String × String))
    (parse_boolean_string : String → Bool) : List (String × Bool) :=
  environ.filterMap fun kv =>
    if featureEnvKeyMatches kv.1 then
      some (stripFeatureEnvKey kv.1, parse_boolean_string kv.2)
    else
      none

/-- The value of `DEFAULT_FEATURE_FLAGS` after
`DEFAULT_FEATURE_FLAGS.update({...})`: a name maps to the comprehension
entry when one exists, and to its in-module default otherwise. -/
def featureFlagsAfterEnv (environ : List (String × String))
    (parse_boolean_string : String → Bool) : String → Option Bool :=
  fun name =>
    match (featureEnvOverrides environ parse_boolean_string).lookup name with
    | some b => some b
    | none => DEFAULT_FEATURE_FLAGS.lookup name

/-!
## A small backtracking regex matcher

The source uses four `re` patterns in `mssql.py` and one in `impala.py`.
The fragment they need is: literals, `.` (any character but newline),
`[0-9]`, concatenation, greedy and lazy star, one numbered capturing group,
a negative lookahead, and `$`.  The matcher is written in
continuation-passing style; a fuel argument, decremented on every recursive
call, makes the recursion structural.  Python `re.search` semantics
(leftmost match, greedy backtracking) are mirrored by trying candidate
start positions from the left and, inside a position, trying the greedy
alternative first.
-/

/-- Abstract syntax of the regex fragment used by the source patterns. -/
inductive Re where
  | lit (w : List Char)
  | dot
  | digit
  | seq (a b : Re)
  | star (a : Re)
  | lazyStar (a : Re)
  | group (n : Nat) (a : Re)
  | nla (a : Re)
  | eol
deriving Repr

/-- Captured groups: group number paired with the captured characters,
most recent first. -/
def Caps := List (Nat × List Char)
deriving instance DecidableEq for Caps

/-- CPS matcher.  `Re.run fuel r s g k` attempts to match `r` at the front
of `s` with captures `g`, calling the continuation `k` on the rest of the
input on success.  Star iterations must consume input, so the matcher is
total; fuel only bounds the recursion depth. -/
def Re.run : Nat → Re → List Char → Caps →
    (List Char → Caps → Option Caps) → Option Caps
  | 0, _, _, _, _ => none
  | _ + 1, Re.lit w, s, g, k =>
    if w.isPrefixOf s then k (s.drop w.length) g else none
  | _ + 1, Re.dot, s, g, k =>
    match s with
    | [] => none
    | c :: rest => if c = '\n' then none else k rest g
  | _ + 1, Re.digit, s, g, k =>
    match s with
    | [] => none
    | c :: rest => if '0' ≤ c ∧ c ≤ '9' then k rest g else none
  | fuel + 1, Re.seq a b, s, g, k =>
    Re.run fuel a s g (fun s' g' => Re.run fuel b s' g' k)
  | fuel + 1, Re.star a, s, g, k =>
    match Re.run fuel a s g (fun s' g' =>
        if s'.length < s.length then Re.run fuel (Re.star a) s' g' k
        else none) with
    | some r => some r
    | none => k s g
  | fuel + 1, Re.lazyStar a, s, g, k =>
    match k s g with
    | some r => some r
    | none =>
      Re.run fuel a s g (fun s' g' =>
        if s'.length < s.length then Re.run fuel (Re.lazyStar a) s' g' k
        else none)
  | fuel + 1, Re.group n a, s, g, k =>
    Re.run fuel a s g (fun s' g' =>
      k s' ((n, s.take (s.length - s'.length)) :: g'))
  | fuel + 1, Re.nla a, s, g, k =>
    match Re.run fuel a s g (fun _ g' => some g') with
    | some _ => none
    | none => k s g
  | _ + 1, Re.eol, s, g, k =>
    if s = [] ∨ s = ['\n'] then k s g else none

/-- Try to match at the given position, then at every later position:
Python `re.search`. -/
def Re.searchFrom (fuel : Nat) (r : Re) : List Char → Option Caps
  | [] => Re.run fuel r [] [] (fun _ g => some g)
  | c :: rest =>
    match Re.run fuel r (c :: rest) [] (fun _ g => some g) with
    | some g => some g
    | none => Re.searchFrom fuel r rest

/-- Fuel that is always sufficient for the source patterns on the given
input: every star iteration consumes a character and the patterns nest to
small constant depth. -/
def Re.fuelFor (s : List Char) : Nat :=
  8 * s.length + 64

/-- Python `pattern.search(s)`: captures of the leftmost match, if any. -/
def Re.search (r : Re) (s : String) : Option Caps :=
  Re.searchFrom (Re.fuelFor s.toList) r s.toList

/-- Python `pattern.match(s)`: match anchored at the start of the string
(the rest of the input need not be consumed). -/
def Re.matchAt (r : Re) (s : String) : Option Caps :=
  Re.run (Re.fuelFor s.toList) r s.toList [] (fun _ g => some g)

/-- A literal regex from a string. -/
def Re.litS (s : String) : Re :=
  Re.lit s.toList

/-!
## MSSQL custom error patterns (`mssql.py`, lines 38-49 and 98-125)
-/

/-- `re.compile("Adaptive Server connection failed")`. -/
def CONNECTION_ACCESS_DENIED_REGEX : Re :=
  Re.litS "Adaptive Server connection failed"

/-- `re.compile(r"Adaptive Server is unavailable or does not exist
\((?P<hostname>.*?)\)(?!.*Net-Lib error).*$")`; the capturing group
`hostname` is numbered 1. -/
def CONNECTION_INVALID_HOSTNAME_REGEX : Re :=
  Re.seq (Re.litS "Adaptive Server is unavailable or does not exist (")
    (Re.seq (Re.group 1 (Re.lazyStar Re.dot))
      (Re.seq (Re.litS ")")
        (Re.seq (Re.nla (Re.seq (Re.star Re.dot) (Re.litS "Net-Lib error")))
          (Re.seq (Re.star Re.dot) Re.eol))))

/-- `re.compile(r"Net-Lib error during Connection refused \(61\)")`. -/
def CONNECTION_PORT_CLOSED_REGEX : Re :=
  Re.litS "Net-Lib error during Connection refused (61)"

/-- `re.compile(r"Net-Lib error during Operation timed out \(60\)")`. -/
def CONNECTION_HOST_DOWN_REGEX : Re :=
  Re.litS "Net-Lib error during Operation timed out (60)"

/-- The four members of `SupersetErrorType` that `mssql.py` uses
(`superset/errors.py` is outside the excerpt; only these four values are
needed). -/
inductive SupersetErrorType where
  | CONNECTION_ACCESS_DENIED_ERROR
  | CONNECTION_INVALID_HOSTNAME_ERROR
  | CONNECTION_PORT_CLOSED_ERROR
  | CONNECTION_HOST_DOWN_ERROR
deriving DecidableEq, Repr

namespace MssqlEngineSpec

/-- `MssqlEngineSpec.engine`. -/
def engine : String := "mssql"

/-- `MssqlEngineSpec.custom_errors`, keeping the association between each
compiled pattern and the error type it is mapped to (the human-readable
message templates play no role in classification). -/
def custom_errors : List (Re × SupersetErrorType) :=
  [ (CONNECTION_ACCESS_DENIED_REGEX,
      SupersetErrorType.CONNECTION_ACCESS_DENIED_ERROR)
  , (CONNECTION_INVALID_HOSTNAME_REGEX,
      SupersetErrorType.CONNECTION_INVALID_HOSTNAME_ERROR)
  , (CONNECTION_PORT_CLOSED_REGEX,
      SupersetErrorType.CONNECTION_PORT_CLOSED_ERROR)
  , (CONNECTION_HOST_DOWN_REGEX,
      SupersetErrorType.CONNECTION_HOST_DOWN_ERROR)
  ]

/-- Modelled from the spec: the generic query-execution layer classifies a
database error message by running every entry of the engine spec
dispatch table against it (`BaseEngineSpec` is outside the excerpt).  A
message is assigned every error type whose pattern matches, together with
the captures of the match. -/
def classifyError (msg : String) : List (SupersetErrorType × Caps) :=
  custom_errors.filterMap fun rt =>
    (Re.search rt.1 msg).map fun g => (rt.2, g)

end MssqlEngineSpec

/-!
## Impala query progress regex (`impala.py`, line 41)
-/

/-- `QUERY_PROGRESS_REGEX = re.compile(r"Query.*: (?P<query_progress>[0-9]+)%")`;
the capturing group `query_progress` is numbered 1. -/
def QUERY_PROGRESS_REGEX : Re :=
  Re.seq (Re.litS "Query")
    (Re.seq (Re.star Re.dot)
      (Re.seq (Re.litS ": ")
        (Re.seq (Re.group 1 (Re.seq Re.digit (Re.star Re.digit)))
          (Re.litS "%"))))

/-- Decimal digits to a natural number, as Python `int` on a digit string. -/
def digitsToNat (l : List Char) : Nat :=
  l.foldl (fun n c => n * 10 + (c.toNat - '0'.toNat)) 0

/-- The progress extraction performed inside `handle_cursor`:
`QUERY_PROGRESS_REGEX.match(log)` followed by
`int(match.groupdict()["query_progress"])`; `none` when the anchored match
fails. -/
def parseProgress (log : String) : Option Nat :=
  match Re.matchAt QUERY_PROGRESS_REGEX log with
  | some g =>
    match g.lookup 1 with
    | some ds => some (digitsToNat ds)
    | none => none
  | none => none

/-!
## Time grains (`superset/constants.py`, outside the excerpt)

`TimeGrain` is an enumeration in `superset/constants.py`; only the members
used as keys by the two `_time_grain_expressions` tables are needed here.
-/

/-- The `TimeGrain` members used by `impala.py` and `mssql.py`. -/
inductive TimeGrain where
  | SECOND
  | MINUTE
  | FIVE_MINUTES
  | TEN_MINUTES
  | FIFTEEN_MINUTES
  | THIRTY_MINUTES
  | HOUR
  | DAY
  | WEEK
  | MONTH
  | QUARTER
  | YEAR
  | WEEK_STARTING_SUNDAY
  | WEEK_STARTING_MONDAY
deriving DecidableEq, Repr

namespace ImpalaEngineSpec

/-- `ImpalaEngineSpec._time_grain_expressions` (`impala.py`, lines 50-59):
the dict sending a supported grain (the key `None` included) to its SQL
expression template; grains absent from the dict yield `none`. -/
def time_grain_expressions : Option TimeGrain → Option String
  | none => some "{col}"
  | some TimeGrain.MINUTE => some "TRUNC({col}, \x27MI\x27)"
  | some TimeGrain.HOUR => some "TRUNC({col}, \x27HH\x27)"
  | some TimeGrain.DAY => some "TRUNC({col}, \x27DD\x27)"
  | some TimeGrain.WEEK => some "TRUNC({col}, \x27WW\x27)"
  | some TimeGrain.MONTH => some "TRUNC({col}, \x27MONTH\x27)"
  | some TimeGrain.QUARTER => some "TRUNC({col}, \x27Q\x27)"
  | some TimeGrain.YEAR => some "TRUNC({col}, \x27YYYY\x27)"
  | some _ => none

end ImpalaEngineSpec

namespace MssqlEngineSpec

/-- `MssqlEngineSpec._time_grain_expressions` (`mssql.py`, lines 59-83).
Four of the Python string literals contain a backslash-newline
continuation, so the template keeps the trailing space of the first line
and the twelve leading spaces of the continuation line. -/
def time_grain_expressions : Option TimeGrain → Option String
  | none => some "{col}"
  | some TimeGrain.SECOND =>
    some ("DATEADD(SECOND, " ++ "            " ++
      "DATEDIFF(SECOND, \x272000-01-01\x27, {col}), \x272000-01-01\x27)")
  | some TimeGrain.MINUTE =>
    some "DATEADD(MINUTE, DATEDIFF(MINUTE, 0, {col}), 0)"
  | some TimeGrain.FIVE_MINUTES =>
    some ("DATEADD(MINUTE, " ++ "            " ++
      "DATEDIFF(MINUTE, 0, {col}) / 5 * 5, 0)")
  | some TimeGrain.TEN_MINUTES =>
    some ("DATEADD(MINUTE, " ++ "            " ++
      "DATEDIFF(MINUTE, 0, {col}) / 10 * 10, 0)")
  | some TimeGrain.FIFTEEN_MINUTES =>
    some ("DATEADD(MINUTE, " ++ "            " ++
      "DATEDIFF(MINUTE, 0, {col}) / 15 * 15, 0)")
  | some TimeGrain.THIRTY_MINUTES =>
    some ("DATEADD(MINUTE, " ++ "            " ++
      "DATEDIFF(MINUTE, 0, {col}) / 30 * 30, 0)")
  | some TimeGrain.HOUR =>
    some "DATEADD(HOUR, DATEDIFF(HOUR, 0, {col}), 0)"
  | some TimeGrain.DAY =>
    some "DATEADD(DAY, DATEDIFF(DAY, 0, {col}), 0)"
  | some TimeGrain.WEEK =>
    some ("DATEADD(DAY, 1 - DATEPART(WEEKDAY, {col})," ++
      " DATEADD(DAY, DATEDIFF(DAY, 0, {col}), 0))")
  | some TimeGrain.MONTH =>
    some "DATEADD(MONTH, DATEDIFF(MONTH, 0, {col}), 0)"
  | some TimeGrain.QUARTER =>
    some "DATEADD(QUARTER, DATEDIFF(QUARTER, 0, {col}), 0)"
  | some TimeGrain.YEAR =>
    some "DATEADD(YEAR, DATEDIFF(YEAR, 0, {col}), 0)"
  | some TimeGrain.WEEK_STARTING_SUNDAY =>
    some ("DATEADD(DAY, -1," ++
      " DATEADD(WEEK, DATEDIFF(WEEK, 0, {col}), 0))")
  | some TimeGrain.WEEK_STARTING_MONDAY =>
    some ("DATEADD(WEEK," ++
      " DATEDIFF(WEEK, 0, DATEADD(DAY, -1, {col})), 0)")

end MssqlEngineSpec

/-!
## Datetime values and their ISO renderings

`convert_dttm` receives a Python `datetime.datetime`.  Only the ISO
renderings used by `mssql.py` are modelled: `dttm.date().isoformat()`,
`dttm.isoformat(sep=" ", timespec="seconds")` and
`dttm.isoformat(timespec="milliseconds")`, for naive datetimes.
-/

/-- Zero-padding to two digits, as in ISO dates. -/
def pad2 (n : Nat) : String :=
  if n < 10 then "0" ++ toString n else toString n

/-- Zero-padding to three digits, for the milliseconds field. -/
def pad3 (n : Nat) : String :=
  if n < 10 then "00" ++ toString n
  else if n < 100 then "0" ++ toString n
  else toString n

/-- Zero-padding to four digits, for the year field. -/
def pad4 (n : Nat) : String :=
  if n < 10 then "000" ++ toString n
  else if n < 100 then "00" ++ toString n
  else if n < 1000 then "0" ++ toString n
  else toString n

/-- A naive Python `datetime.datetime` value. -/
structure PyDatetime where
  year : Nat
  month : Nat
  day : Nat
  hour : Nat
  minute : Nat
  second : Nat
  microsecond : Nat
deriving DecidableEq, Repr

/-- `dttm.date().isoformat()`: `YYYY-MM-DD`. -/
def PyDatetime.dateIso (d : PyDatetime) : String :=
  pad4 d.year ++ "-" ++ pad2 d.month ++ "-" ++ pad2 d.day

/-- `dttm.isoformat(sep=" ", timespec="seconds")`:
`YYYY-MM-DD HH:MM:SS`. -/
def PyDatetime.isoSecondsSpace (d : PyDatetime) : String :=
  d.dateIso ++ " " ++ pad2 d.hour ++ ":" ++ pad2 d.minute ++ ":" ++
    pad2 d.second

/-- `dttm.isoformat(timespec="milliseconds")`:
`YYYY-MM-DDTHH:MM:SS.mmm`, the milliseconds being
`microsecond // 1000`. -/
def PyDatetime.isoMillis (d : PyDatetime) : String :=
  d.dateIso ++ "T" ++ pad2 d.hour ++ ":" ++ pad2 d.minute ++ ":" ++
    pad2 d.second ++ "." ++ pad3 (d.microsecond / 1000)

/-!
## `MssqlEngineSpec.convert_dttm` (`mssql.py`, lines 131-145)

The target type string is resolved by `cls.get_sqla_column_type`, defined
in `BaseEngineSpec` outside the excerpt; the resolver is therefore an
abstract parameter.  What matters to `convert_dttm` is only which
`isinstance` test the result satisfies first: `types.Date`, then
`SMALLDATETIME` (a subclass of `types.DateTime`), then `types.DateTime`,
and otherwise none of them.
-/

/-- Outcome of the `isinstance` cascade on the resolved SQLAlchemy column
type. -/
inductive SqlaTypeClass where
  | dateT
  | smallDateTimeT
  | dateTimeT
  | otherT
deriving DecidableEq, Repr

namespace MssqlEngineSpec

/-- `MssqlEngineSpec.convert_dttm`: dialect-specific datetime literal, or
`none` for an unhandled target type. -/
def convert_dttm (get_sqla_column_type : String → Option SqlaTypeClass)
    (target_type : String) (dttm : PyDatetime) : Option String :=
  match get_sqla_column_type target_type with
  | some SqlaTypeClass.dateT =>
    some ("CONVERT(DATE, \x27" ++ dttm.dateIso ++ "\x27, 23)")
  | some SqlaTypeClass.smallDateTimeT =>
    some ("CONVERT(SMALLDATETIME, \x27" ++ dttm.isoSecondsSpace ++ "\x27, 20)")
  | some SqlaTypeClass.dateTimeT =>
    some ("CONVERT(DATETIME, \x27" ++ dttm.isoMillis ++ "\x27, 126)")
  | some SqlaTypeClass.otherT => none
  | none => none

/-!
## `MssqlEngineSpec.extract_error_message` (`mssql.py`, lines 157-164)
-/

/-- What `extract_error_message` observes of an exception: its `str(ex)`
rendering, and the message that the inherited
`BaseEngineSpec._extract_error_message` (outside the excerpt) would
extract from it. -/
structure PyException where
  strForm : String
  genericMessage : String

/-- `MssqlEngineSpec.extract_error_message`. -/
def extract_error_message (ex : PyException) : String :=
  if pyStartsWith ex.strForm "(8155," then
    engine ++ " error: All your SQL functions need to " ++
      "have an alias on MSSQL. For example: SELECT COUNT(*) AS C1 FROM TABLE1"
  else
    engine ++ " error: " ++ ex.genericMessage

end MssqlEngineSpec

/-!
## `ImpalaEngineSpec.handle_cursor` (`impala.py`, lines 112-165)

The polling loop interacts with the cursor, the ORM session and the clock.
Those interactions are modelled by an environment of response functions
indexed by the loop iteration, and the loop itself by a fuel-indexed
recursive function that records a trace of the observable actions.  The
`status()` call and the `get_log()` call may raise; the reference to the
Python local `progress` raises `UnboundLocalError` when a non-empty log
line fails the anchored progress regex and no earlier iteration assigned
`progress`.  The outer `try`/`except Exception` of the method catches
every exception raised inside the loop; the inner `try` around
`get_log()` catches only that call.
-/

/-- The statuses the loop keeps polling on:
`("INITIALIZED_STATE", "RUNNING_STATE")`. -/
def unfinishedState (s : String) : Bool :=
  s == "INITIALIZED_STATE" || s == "RUNNING_STATE"

/-- Environment of `handle_cursor`: the outcome of the `i`-th in-loop
interaction of each kind.  `status 0` is the call made before the loop;
the call after the `i`-th sleep is `status (i + 1)`.  `extraCancel i` is
the value of `query.extra.get(QUERY_EARLY_CANCEL_KEY)` seen after the
`i`-th refresh.  `pollIntervalCfg` is
`app.config["DB_POLL_INTERVAL_SECONDS"].get(cls.engine, 5)`, i.e. the
configured per-engine interval when present. -/
structure CursorEnv where
  status : Nat → PyResult String
  getLog : Nat → PyResult (Option String)
  extraCancel : Nat → Bool
  pollIntervalCfg : Option Nat

/-- Exceptions distinguished by the embedding. -/
inductive PyExc where
  | statusError
  | nameError
deriving DecidableEq, Repr

/-- How the polling loop ended. -/
inductive LoopEnd where
  | finishedState
  | cancelled
  | fuelOut
  | raised (e : PyExc)
deriving DecidableEq, Repr

/-- Observable actions of `handle_cursor`, in order of occurrence. -/
inductive Ev where
  | statusCall (r : PyResult String)
  | refresh (i : Nat)
  | cancelOp
  | closeOp
  | closeCursor
  | getLogFailed
  | commit (p : Nat)
  | sleep (secs : Nat)
  | progressNameError
deriving DecidableEq, Repr

/-- The log string the iteration works with: `cursor.get_log() or ""`,
with a raising `get_log()` caught and replaced by `""`. -/
def iterLog (env : CursorEnv) (i : Nat) : String :=
  match env.getLog i with
  | PyResult.raised => ""
  | PyResult.ok none => ""
  | PyResult.ok (some l) => l

/-- One iteration of the loop body between the early-cancel check and the
sleep: the log fetch and the progress update.  Returns `Sum.inl` with the
recorded events, the new value of the Python local `progress` and the new
stored query progress, or `Sum.inr` with the recorded events when the
iteration raises (the `progress` reference with the local still
unassigned). -/
def iterStep (env : CursorEnv) (i : Nat) (progressVar : Option Nat)
    (qprog : Nat) : (List Ev × Option Nat × Nat) ⊕ List Ev :=
  match env.getLog i with
  | PyResult.raised => Sum.inl ([Ev.getLogFailed], progressVar, qprog)
  | PyResult.ok none => Sum.inl ([], progressVar, qprog)
  | PyResult.ok (some l) =>
    if l = "" then Sum.inl ([], progressVar, qprog)
    else
      match (match parseProgress l with
             | some p => some p
             | none => progressVar) with
      | none => Sum.inr [Ev.progressNameError]
      | some p =>
        if qprog < p then Sum.inl ([Ev.commit p], some p, p)
        else Sum.inl ([], some p, qprog)

namespace ImpalaEngineSpec

/-- The `while status in unfinished_states` loop of `handle_cursor`,
entered with the most recent status in hand.  `i` numbers the iteration,
`progressVar` is the Python local `progress` (`none` while unassigned),
`qprog` the stored query progress.  Fuel bounds the number of
iterations; a run that exhausts it ends with `LoopEnd.fuelOut`. -/
def pollLoop (env : CursorEnv) : Nat → Nat → Option Nat → Nat → String →
    List Ev × LoopEnd
  | 0, _, _, _, s =>
    if unfinishedState s then ([], LoopEnd.fuelOut)
    else ([], LoopEnd.finishedState)
  | fuel + 1, i, progressVar, qprog, s =>
    if unfinishedState s then
      if env.extraCancel i then
        ([Ev.refresh i, Ev.cancelOp, Ev.closeOp, Ev.closeCursor],
          LoopEnd.cancelled)
      else
        match iterStep env i progressVar qprog with
        | Sum.inr evs =>
          (Ev.refresh i :: evs, LoopEnd.raised PyExc.nameError)
        | Sum.inl (evs, progressVar', qprog') =>
          match env.status (i + 1) with
          | PyResult.raised =>
            (Ev.refresh i :: evs ++
              [Ev.sleep (env.pollIntervalCfg.getD 5),
               Ev.statusCall PyResult.raised],
             LoopEnd.raised PyExc.statusError)
          | PyResult.ok s' =>
            let rest := ImpalaEngineSpec.pollLoop env fuel (i + 1)
              progressVar' qprog' s'
            (Ev.refresh i :: evs ++
              [Ev.sleep (env.pollIntervalCfg.getD 5),
               Ev.statusCall (PyResult.ok s')] ++ rest.1,
             rest.2)
    else ([], LoopEnd.finishedState)

/-- The body of the outer `try` of `handle_cursor`: the initial
`cursor.status()` call followed by the polling loop. -/
def handle_cursor_try (env : CursorEnv) (fuel : Nat) (initProgress : Nat) :
    List Ev × LoopEnd :=
  match env.status 0 with
  | PyResult.raised =>
    ([Ev.statusCall PyResult.raised], LoopEnd.raised PyExc.statusError)
  | PyResult.ok s =>
    let r := ImpalaEngineSpec.pollLoop env fuel 0 none initProgress s
    (Ev.statusCall (PyResult.ok s) :: r.1, r.2)

/-- `ImpalaEngineSpec.handle_cursor` as seen by its caller: the outer
`except Exception` handler logs and returns, so a raised exception and a
normal loop exit both end in a normal return (`PyResult.ok ()`); a
propagated exception would appear as `PyResult.raised`. -/
def handle_cursor (env : CursorEnv) (fuel : Nat) (initProgress : Nat) :
    List Ev × PyResult Unit :=
  let r := ImpalaEngineSpec.handle_cursor_try env fuel initProgress
  match r.2 with
  | LoopEnd.raised _ => (r.1, PyResult.ok ())
  | _ => (r.1, PyResult.ok ())

end ImpalaEngineSpec

/-- The commit values recorded in a trace, in order. -/
def commitsOf (t : List Ev) : List Nat :=
  t.filterMap fun e =>
    match e with
    | Ev.commit p => some p
    | _ => none

/-!
## `ImpalaEngineSpec.cancel_query` (`impala.py`, lines 183-200)

Building the URL reads `query.database.url_object.host` and the POST goes
over the network; both are fallible and are modelled as one abstract
request outcome.  A `requests.Response` is truthy exactly when its status
code is below 400 (`Response.__bool__` returns `self.ok`), which the
`bool(response and response.status_code == 200)` expression relies on.
-/

/-- The observable part of a `requests.Response`. -/
structure HttpResponse where
  status_code : Nat
deriving DecidableEq, Repr

/-- Truthiness of a `requests.Response`. -/
def responseTruthy (r : HttpResponse) : Bool :=
  r.status_code < 400

namespace ImpalaEngineSpec

/-- `ImpalaEngineSpec.cancel_query`: `requestOutcome` is the attempt to
build and send the POST (raised when any step of it fails). -/
def cancel_query (requestOutcome : PyResult HttpResponse) : Bool :=
  match requestOutcome with
  | PyResult.raised => false
  | PyResult.ok r => responseTruthy r && (r.status_code == 200)

end ImpalaEngineSpec

/-!
## Theorems
-/

/-- C2: Time-grain translation is a pure lookup from (engine, time grain)
to a format string.  Every grain supported by `ImpalaEngineSpec` maps to
the fixed `TRUNC` template of its table (with `None` mapping to the bare
column), and every grain supported by `MssqlEngineSpec` maps to the fixed
`DATEADD`/`DATEDIFF` entry of its table; both tables are functions of the
grain alone, so the result depends only on the engine and the grain. -/
theorem time_grain_tables_fixed :
    ImpalaEngineSpec.time_grain_expressions none = some "{col}" ∧
    ImpalaEngineSpec.time_grain_expressions (some TimeGrain.MINUTE) =
      some "TRUNC({col}, \x27MI\x27)" ∧
    ImpalaEngineSpec.time_grain_expressions (some TimeGrain.HOUR) =
      some "TRUNC({col}, \x27HH\x27)" ∧
    ImpalaEngineSpec.time_grain_expressions (some TimeGrain.DAY) =
      some "TRUNC({col}, \x27DD\x27)" ∧
    ImpalaEngineSpec.time_grain_expressions (some TimeGrain.WEEK) =
      some "TRUNC({col}, \x27WW\x27)" ∧
    ImpalaEngineSpec.time_grain_expressions (some TimeGrain.MONTH) =
      some "TRUNC({col}, \x27MONTH\x27)" ∧
    ImpalaEngineSpec.time_grain_expressions (some TimeGrain.QUARTER) =
      some "TRUNC({col}, \x27Q\x27)" ∧
    ImpalaEngineSpec.time_grain_expressions (some TimeGrain.YEAR) =
      some "TRUNC({col}, \x27YYYY\x27)" ∧
    ImpalaEngineSpec.time_grain_expressions (some TimeGrain.SECOND) = none ∧
    MssqlEngineSpec.time_grain_expressions none = some "{col}" ∧
    MssqlEngineSpec.time_grain_expressions (some TimeGrain.SECOND) =
      some "DATEADD(SECOND,             DATEDIFF(SECOND, \x272000-01-01\x27, {col}), \x272000-01-01\x27)" ∧
    MssqlEngineSpec.time_grain_expressions (some TimeGrain.MINUTE) =
      some "DATEADD(MINUTE, DATEDIFF(MINUTE, 0, {col}), 0)" ∧
    MssqlEngineSpec.time_grain_expressions (some TimeGrain.FIVE_MINUTES) =
      some "DATEADD(MINUTE,             DATEDIFF(MINUTE, 0, {col}) / 5 * 5, 0)" ∧
    MssqlEngineSpec.time_grain_expressions (some TimeGrain.TEN_MINUTES) =
      some "DATEADD(MINUTE,             DATEDIFF(MINUTE, 0, {col}) / 10 * 10, 0)" ∧
    MssqlEngineSpec.time_grain_expressions (some TimeGrain.FIFTEEN_MINUTES) =
      some "DATEADD(MINUTE,             DATEDIFF(MINUTE, 0, {col}) / 15 * 15, 0)" ∧
    MssqlEngineSpec.time_grain_expressions (some TimeGrain.THIRTY_MINUTES) =
      some "DATEADD(MINUTE,             DATEDIFF(MINUTE, 0, {col}) / 30 * 30, 0)" ∧
    MssqlEngineSpec.time_grain_expressions (some TimeGrain.HOUR) =
      some "DATEADD(HOUR, DATEDIFF(HOUR, 0, {col}), 0)" ∧
    MssqlEngineSpec.time_grain_expressions (some TimeGrain.DAY) =
      some "DATEADD(DAY, DATEDIFF(DAY, 0, {col}), 0)" ∧
    MssqlEngineSpec.time_grain_expressions (some TimeGrain.WEEK) =
      some "DATEADD(DAY, 1 - DATEPART(WEEKDAY, {col}), DATEADD(DAY, DATEDIFF(DAY, 0, {col}), 0))" ∧
    MssqlEngineSpec.time_grain_expressions (some TimeGrain.MONTH) =
      some "DATEADD(MONTH, DATEDIFF(MONTH, 0, {col}), 0)" ∧
    MssqlEngineSpec.time_grain_expressions (some TimeGrain.QUARTER) =
      some "DATEADD(QUARTER, DATEDIFF(QUARTER, 0, {col}), 0)" ∧
    MssqlEngineSpec.time_grain_expressions (some TimeGrain.YEAR) =
      some "DATEADD(YEAR, DATEDIFF(YEAR, 0, {col}), 0)" ∧
    MssqlEngineSpec.time_grain_expressions (some TimeGrain.WEEK_STARTING_SUNDAY) =
      some "DATEADD(DAY, -1, DATEADD(WEEK, DATEDIFF(WEEK, 0, {col}), 0))" ∧
    MssqlEngineSpec.time_grain_expressions (some TimeGrain.WEEK_STARTING_MONDAY) =
      some "DATEADD(WEEK, DATEDIFF(WEEK, 0, DATEADD(DAY, -1, {col})), 0)" := by
  decide

/-- C10: `cancel_query` returns `true` exactly when the POST to the
coordinator produced a response with status code 200, and returns `false`
rather than raising whenever building or sending the request fails. -/
theorem impala_cancel_query_spec (req : PyResult HttpResponse) :
    (ImpalaEngineSpec.cancel_query req = true ↔
      ∃ r, req = PyResult.ok r ∧ r.status_code = 200) ∧
    ImpalaEngineSpec.cancel_query PyResult.raised = false := by
  constructor
  · cases req with
    | raised => simp [ImpalaEngineSpec.cancel_query]
    | ok r =>
      simp only [ImpalaEngineSpec.cancel_query, responseTruthy,
        Bool.and_eq_true, decide_eq_true_eq, beq_iff_eq, PyResult.ok.injEq]
      constructor
      · rintro ⟨-, h⟩
        exact ⟨r, rfl, h⟩
      · rintro ⟨r', he, h⟩
        subst he
        exact ⟨by omega, h⟩
  · rfl

/-- C6: `extract_error_message` always yields a string beginning with
`mssql error: `; when `str(ex)` starts with `(8155,` the remainder is the
fixed alias advice, and otherwise the remainder is the generically
extracted message. -/
theorem mssql_extract_error_message_spec (sf gm : String) :
    (∃ r, MssqlEngineSpec.extract_error_message ⟨sf, gm⟩ =
      "mssql error: " ++ r) ∧
    (pyStartsWith sf "(8155," = true →
      MssqlEngineSpec.extract_error_message ⟨sf, gm⟩ =
        "mssql error: All your SQL functions need to have an alias on MSSQL. For example: SELECT COUNT(*) AS C1 FROM TABLE1") ∧
    (pyStartsWith sf "(8155," = false →
      MssqlEngineSpec.extract_error_message ⟨sf, gm⟩ =
        "mssql error: " ++ gm) := by
  have hpre : MssqlEngineSpec.engine ++ " error: " = "mssql error: " := by
    decide
  have hgen : MssqlEngineSpec.engine ++ " error: " ++ gm =
      "mssql error: " ++ gm := by
    rw [hpre]
  have hsplit : "mssql error: " ++
      "All your SQL functions need to have an alias on MSSQL. For example: SELECT COUNT(*) AS C1 FROM TABLE1" =
      "mssql error: All your SQL functions need to have an alias on MSSQL. For example: SELECT COUNT(*) AS C1 FROM TABLE1" := by
    decide
  have hfix : MssqlEngineSpec.engine ++ " error: All your SQL functions need to " ++
      "have an alias on MSSQL. For example: SELECT COUNT(*) AS C1 FROM TABLE1" =
      "mssql error: All your SQL functions need to have an alias on MSSQL. For example: SELECT COUNT(*) AS C1 FROM TABLE1" := by
    decide
  refine ⟨?_, ?_, ?_⟩
  · by_cases h : pyStartsWith sf "(8155," = true
    · refine ⟨"All your SQL functions need to have an alias on MSSQL. For example: SELECT COUNT(*) AS C1 FROM TABLE1", ?_⟩
      rw [MssqlEngineSpec.extract_error_message, if_pos h, hfix, hsplit]
    · rw [Bool.not_eq_true] at h
      refine ⟨gm, ?_⟩
      rw [MssqlEngineSpec.extract_error_message, if_neg (by simp [h]), hgen]
  · intro h
    rw [MssqlEngineSpec.extract_error_message, if_pos h, hfix]
  · intro h
    rw [MssqlEngineSpec.extract_error_message, if_neg (by simp [h]), hgen]

/-- Witness for C6 at concrete exceptions: one whose string form starts
with `(8155,` and one that does not. -/
theorem mssql_extract_error_message_spec_witness :
    MssqlEngineSpec.extract_error_message ⟨"(8155, b)", "ignored"⟩ =
      "mssql error: All your SQL functions need to have an alias on MSSQL. For example: SELECT COUNT(*) AS C1 FROM TABLE1" ∧
    MssqlEngineSpec.extract_error_message ⟨"(42) boom", "generic message"⟩ =
      "mssql error: generic message" :=
  ⟨(mssql_extract_error_message_spec "(8155, b)" "ignored").2.1 (by decide),
   ((mssql_extract_error_message_spec "(42) boom" "generic message").2.2
      (by decide)).trans (by decide)⟩

/-- C7: `MssqlEngineSpec.convert_dttm` is total via `none`: a `DATE`
target yields `CONVERT(DATE, ..., 23)` on the ISO date, a `SMALLDATETIME`
target yields `CONVERT(SMALLDATETIME, ..., 20)` on the ISO datetime to
seconds, any other `DATETIME` target yields `CONVERT(DATETIME, ..., 126)`
on the ISO datetime to milliseconds, and every other target type yields
`none`. -/
theorem mssql_convert_dttm_spec
    (get_sqla_column_type : String → Option SqlaTypeClass)
    (target_type : String) (d : PyDatetime) :
    (get_sqla_column_type target_type = some SqlaTypeClass.dateT →
      MssqlEngineSpec.convert_dttm get_sqla_column_type target_type d =
        some ("CONVERT(DATE, \x27" ++ d.dateIso ++ "\x27, 23)")) ∧
    (get_sqla_column_type target_type = some SqlaTypeClass.smallDateTimeT →
      MssqlEngineSpec.convert_dttm get_sqla_column_type target_type d =
        some ("CONVERT(SMALLDATETIME, \x27" ++ d.isoSecondsSpace ++ "\x27, 20)")) ∧
    (get_sqla_column_type target_type = some SqlaTypeClass.dateTimeT →
      MssqlEngineSpec.convert_dttm get_sqla_column_type target_type d =
        some ("CONVERT(DATETIME, \x27" ++ d.isoMillis ++ "\x27, 126)")) ∧
    (get_sqla_column_type target_type = some SqlaTypeClass.otherT ∨
        get_sqla_column_type target_type = none →
      MssqlEngineSpec.convert_dttm get_sqla_column_type target_type d =
        none) := by
  refine ⟨?_, ?_, ?_, ?_⟩
  · intro h
    rw [MssqlEngineSpec.convert_dttm, h]
  · intro h
    rw [MssqlEngineSpec.convert_dttm, h]
  · intro h
    rw [MssqlEngineSpec.convert_dttm, h]
  · rintro (h | h) <;> rw [MssqlEngineSpec.convert_dttm, h]

/-- Witness for C7 at a concrete datetime and concrete resolvers, checking
the rendered literals of all four branches. -/
theorem mssql_convert_dttm_spec_witness :
    MssqlEngineSpec.convert_dttm (fun _ => some SqlaTypeClass.dateT) "DATE"
      ⟨2024, 3, 7, 5, 6, 7, 123456⟩ =
      some "CONVERT(DATE, \x272024-03-07\x27, 23)" ∧
    MssqlEngineSpec.convert_dttm (fun _ => some SqlaTypeClass.smallDateTimeT)
      "SMALLDATETIME" ⟨2024, 3, 7, 5, 6, 7, 123456⟩ =
      some "CONVERT(SMALLDATETIME, \x272024-03-07 05:06:07\x27, 20)" ∧
    MssqlEngineSpec.convert_dttm (fun _ => some SqlaTypeClass.dateTimeT)
      "DATETIME" ⟨2024, 3, 7, 5, 6, 7, 123456⟩ =
      some "CONVERT(DATETIME, \x272024-03-07T05:06:07.123\x27, 126)" ∧
    MssqlEngineSpec.convert_dttm (fun _ => some SqlaTypeClass.otherT)
      "VARCHAR(10)" ⟨2024, 3, 7, 5, 6, 7, 123456⟩ = none :=
  ⟨((mssql_convert_dttm_spec (fun _ => some SqlaTypeClass.dateT) "DATE"
      ⟨2024, 3, 7, 5, 6, 7, 123456⟩).1 rfl).trans (by decide),
   ((mssql_convert_dttm_spec (fun _ => some SqlaTypeClass.smallDateTimeT)
      "SMALLDATETIME" ⟨2024, 3, 7, 5, 6, 7, 123456⟩).2.1 rfl).trans (by decide),
   ((mssql_convert_dttm_spec (fun _ => some SqlaTypeClass.dateTimeT)
      "DATETIME" ⟨2024, 3, 7, 5, 6, 7, 123456⟩).2.2.1 rfl).trans (by decide),
   (mssql_convert_dttm_spec (fun _ => some SqlaTypeClass.otherT)
      "VARCHAR(10)" ⟨2024, 3, 7, 5, 6, 7, 123456⟩).2.2.2 (Or.inl rfl)⟩

/-- C1: later assignment wins in the configuration registry.  For a
configuration name (an `isupper` name, not underscore-private) defined by
the override module, both deployment override mechanisms leave the
override value in the module; a name the override module does not define
keeps its default under either mechanism. -/
theorem config_override_later_assignment_wins {V : Type}
    (base : String → Option V) (ov : List (String × V)) (name : String) :
    (∀ v, ov.lookup name = some v → pyIsupper name = true →
      pyStartsWith name "_" = false →
      applyConfigPathOverride base ov name = some v ∧
      applyModuleStarImport base ov name = some v) ∧
    (ov.lookup name = none →
      applyConfigPathOverride base ov name = base name ∧
      applyModuleStarImport base ov name = base name) := by
  constructor
  · intro v hv hu hs
    constructor
    · rw [applyConfigPathOverride]
      simp [hv, hu]
    · rw [applyModuleStarImport]
      simp [hv, hs]
  · intro hv
    constructor
    · rw [applyConfigPathOverride]
      simp [hv]
    · rw [applyModuleStarImport]
      simp [hv]

/-- Witness for C1: a concrete default map overridden at `ROW_LIMIT` by a
concrete override module, and untouched at `SQL_MAX_ROW`, under both
mechanisms. -/
theorem config_override_later_assignment_wins_witness :
    (applyConfigPathOverride
       (fun n => if n = "ROW_LIMIT" then some 50000 else
         if n = "SQL_MAX_ROW" then some 100000 else none)
       [("ROW_LIMIT", 1000)] "ROW_LIMIT" = some 1000 ∧
     applyModuleStarImport
       (fun n => if n = "ROW_LIMIT" then some 50000 else
         if n = "SQL_MAX_ROW" then some 100000 else none)
       [("ROW_LIMIT", 1000)] "ROW_LIMIT" = some 1000) ∧
    (applyConfigPathOverride
       (fun n => if n = "ROW_LIMIT" then some 50000 else
         if n = "SQL_MAX_ROW" then some 100000 else none)
       [("ROW_LIMIT", 1000)] "SQL_MAX_ROW" = some 100000 ∧
     applyModuleStarImport
       (fun n => if n = "ROW_LIMIT" then some 50000 else
         if n = "SQL_MAX_ROW" then some 100000 else none)
       [("ROW_LIMIT", 1000)] "SQL_MAX_ROW" = some 100000) :=
  ⟨(config_override_later_assignment_wins _ _ _).1 1000 (by decide)
      (by decide) (by decide),
   (config_override_later_assignment_wins _ _ _).2 (by decide)⟩

/-- Strings with equal underlying character lists are equal. -/
theorem stringDataInj {s t : String} (h : s.data = t.data) : s = t := by
  cases s
  cases t
  exact congrArg String.mk h

/-- A key accepted by the comprehension guard is its 17-character
`SUPERSET_FEATURE_` head followed by what `stripFeatureEnvKey` keeps. -/
theorem featureKeyRecover (k : String) (h : featureEnvKeyMatches k = true) :
    "SUPERSET_FEATURE_".toList ++ k.toList.drop 17 = k.toList := by
  rw [featureEnvKeyMatches, Bool.and_eq_true] at h
  have hpre : "SUPERSET_FEATURE_".toList <+: k.toList := by
    have := h.1
    rwa [List.isPrefixOf_iff_prefix] at this
  obtain ⟨t, ht⟩ := hpre
  have hlen : ("SUPERSET_FEATURE_".toList).length = 17 := by decide
  have hdrop : k.toList.drop 17 = t := by
    rw [← ht, ← hlen, List.drop_left]
  rw [hdrop, ht]

/-- `stripFeatureEnvKey` is injective on keys accepted by the guard. -/
theorem stripFeatureEnvKeyInj {k k' : String}
    (hk : featureEnvKeyMatches k = true)
    (hk' : featureEnvKeyMatches k' = true)
    (h : stripFeatureEnvKey k = stripFeatureEnvKey k') : k = k' := by
  have h2 : k.toList.drop 17 = k'.toList.drop 17 := by
    have := congrArg String.data h
    simpa [stripFeatureEnvKey] using this
  apply stringDataInj
  have e1 := featureKeyRecover k hk
  have e2 := featureKeyRecover k' hk'
  calc k.data = "SUPERSET_FEATURE_".toList ++ k.toList.drop 17 := e1.symm
    _ = "SUPERSET_FEATURE_".toList ++ k'.toList.drop 17 := by rw [h2]
    _ = k'.data := e2

/-- Looking up the stripped key of a matching environment entry in the
comprehension result yields the parsed value of that entry. -/
theorem lookup_featureEnvOverrides (environ : List (String × String))
    (pbs : String → Bool) (k v : String)
    (hnd : (environ.map Prod.fst).Nodup) (hmem : (k, v) ∈ environ)
    (hm : featureEnvKeyMatches k = true) :
    (featureEnvOverrides environ pbs).lookup (stripFeatureEnvKey k) =
      some (pbs v) := by
  induction environ with
  | nil => simp at hmem
  | cons kv rest ih =>
    obtain ⟨k0, v0⟩ := kv
    rw [List.map_cons, List.nodup_cons] at hnd
    rcases List.mem_cons.mp hmem with heq | hmemr
    · obtain ⟨hk, hv⟩ := Prod.mk.injEq .. ▸ heq.symm
      subst hk
      subst hv
      rw [featureEnvOverrides, List.filterMap_cons]
      simp only [hm, if_true]
      simp [List.lookup]
    · have hk0ne : k0 ≠ k := by
        intro e
        subst e
        exact hnd.1 (List.mem_map.mpr ⟨(k0, v), hmemr, rfl⟩)
      have hrest := ih hnd.2 hmemr
      by_cases hm0 : featureEnvKeyMatches k0 = true
      · have hne : (stripFeatureEnvKey k == stripFeatureEnvKey k0) = false := by
          rw [beq_eq_false_iff_ne]
          intro e
          exact hk0ne (stripFeatureEnvKeyInj hm0 hm e.symm)
        rw [featureEnvOverrides, List.filterMap_cons]
        simp only [hm0, if_true]
        rw [List.lookup, hne]
        exact hrest
      · rw [featureEnvOverrides, List.filterMap_cons]
        simp only [hm0]
        simp only [Bool.false_eq_true, if_false]
        exact hrest

/-- A name produced by no matching environment entry is absent from the
comprehension result. -/
theorem lookup_featureEnvOverrides_none (environ : List (String × String))
    (pbs : String → Bool) (name : String)
    (h : ∀ kv ∈ environ,
      ¬(featureEnvKeyMatches kv.1 = true ∧ stripFeatureEnvKey kv.1 = name)) :
    (featureEnvOverrides environ pbs).lookup name = none := by
  induction environ with
  | nil => rfl
  | cons kv rest ih =>
    obtain ⟨k0, v0⟩ := kv
    have hrest := ih fun kv hkv => h kv (List.mem_cons_of_mem _ hkv)
    by_cases hm0 : featureEnvKeyMatches k0 = true
    · have hne : (name == stripFeatureEnvKey k0) = false := by
        rw [beq_eq_false_iff_ne]
        intro e
        exact h (k0, v0) (List.mem_cons_self _ _) ⟨hm0, e.symm⟩
      rw [featureEnvOverrides, List.filterMap_cons]
      simp only [hm0, if_true]
      rw [List.lookup, hne]
      exact hrest
    · rw [featureEnvOverrides, List.filterMap_cons]
      simp only [hm0]
      simp only [Bool.false_eq_true, if_false]
      exact hrest

/-- C5: feature flags are overridable by environment.  Under a
duplicate-free environment, every variable named `SUPERSET_FEATURE_`
followed by a word character sets, after the update, the flag named by the
rest of the variable name to `parse_boolean_string` of its value; a flag
named by no such variable keeps its in-module default. -/
theorem feature_flags_env_override (environ : List (String × String))
    (pbs : String → Bool) :
    (∀ k v, (environ.map Prod.fst).Nodup → (k, v) ∈ environ →
      featureEnvKeyMatches k = true →
      featureFlagsAfterEnv environ pbs (stripFeatureEnvKey k) =
        some (pbs v)) ∧
    (∀ name, (∀ kv ∈ environ,
        ¬(featureEnvKeyMatches kv.1 = true ∧
          stripFeatureEnvKey kv.1 = name)) →
      featureFlagsAfterEnv environ pbs name =
        DEFAULT_FEATURE_FLAGS.lookup name) := by
  constructor
  · intro k v hnd hmem hm
    rw [featureFlagsAfterEnv,
      lookup_featureEnvOverrides environ pbs k v hnd hmem hm]
  · intro name hnone
    rw [featureFlagsAfterEnv,
      lookup_featureEnvOverrides_none environ pbs name hnone]

/-- Witness for C5: one overriding variable, one unrelated variable, a
flag set by the override and a flag keeping its default. -/
theorem feature_flags_env_override_witness :
    featureFlagsAfterEnv
      [("SUPERSET_FEATURE_THUMBNAILS", "True"), ("PATH", "/bin")]
      (fun s => s == "True")
      (stripFeatureEnvKey "SUPERSET_FEATURE_THUMBNAILS") = some true ∧
    featureFlagsAfterEnv
      [("SUPERSET_FEATURE_THUMBNAILS", "True"), ("PATH", "/bin")]
      (fun s => s == "True") "DRUID_JOINS" = some false :=
  ⟨(feature_flags_env_override _ _).1 "SUPERSET_FEATURE_THUMBNAILS" "True"
      (by decide) (by decide) (by decide),
   ((feature_flags_env_override _ _).2 "DRUID_JOINS" (by decide)).trans
      (by decide)⟩

/-- Running a literal pattern at the front of the input succeeds exactly
on a prefix match. -/
theorem run_lit_top (fuel : Nat) (w s : List Char) :
    Re.run (fuel + 1) (Re.lit w) s [] (fun _ g => some g) =
      if w.isPrefixOf s then some [] else none := by
  rw [Re.run]

/-- Searching for a literal pattern succeeds exactly when the literal is an
infix of the input. -/
theorem searchFrom_lit_isSome (fuel : Nat) (w s : List Char) :
    (Re.searchFrom (fuel + 1) (Re.lit w) s).isSome = true ↔ w <:+: s := by
  induction s with
  | nil =>
    rw [Re.searchFrom, run_lit_top]
    by_cases hp : w.isPrefixOf ([] : List Char) = true
    · have hw : w = [] := List.prefix_nil.mp (List.isPrefixOf_iff_prefix.mp hp)
      subst hw
      simp
    · have hw : ¬(w <:+: ([] : List Char)) := by
        intro hinf
        have : w = [] := List.eq_nil_of_infix_nil hinf
        subst this
        exact hp (List.isPrefixOf_iff_prefix.mpr List.nil_prefix)
      simp [hp, hw]
  | cons c rest ih =>
    rw [Re.searchFrom, run_lit_top]
    by_cases hp : w.isPrefixOf (c :: rest) = true
    · have : w <:+: c :: rest :=
        (List.isPrefixOf_iff_prefix.mp hp).isInfix
      simp [hp, this]
    · have hnp : ¬(w <+: c :: rest) := by
        intro hc
        exact hp (List.isPrefixOf_iff_prefix.mpr hc)
      rw [if_neg hp]
      rw [ih, List.infix_cons_iff]
      constructor
      · exact Or.inr
      · rintro (hc | hc)
        · exact absurd hc hnp
        · exact hc

/-- `Re.search` on a literal pattern: infix characterization. -/
theorem search_litS_isSome (w s : String) :
    (Re.search (Re.litS w) s).isSome = true ↔ w.toList <:+: s.toList := by
  rw [Re.search, Re.litS]
  have hf : Re.fuelFor s.toList = (8 * s.toList.length + 63) + 1 := by
    rw [Re.fuelFor]
  rw [hf, searchFrom_lit_isSome]

/-- Membership in the classification result, unfolded to the dispatch
table. -/
theorem mem_classifyError (msg : String) (t : SupersetErrorType) (g : Caps) :
    (t, g) ∈ MssqlEngineSpec.classifyError msg ↔
      ∃ r, (r, t) ∈ MssqlEngineSpec.custom_errors ∧
        Re.search r msg = some g := by
  rw [MssqlEngineSpec.classifyError, List.mem_filterMap]
  constructor
  · rintro ⟨⟨r, t'⟩, hmem, hmap⟩
    rw [Option.map_eq_some'] at hmap
    obtain ⟨g0, hs, heq⟩ := hmap
    rw [Prod.ext_iff] at heq
    obtain ⟨ht, hg⟩ := heq
    dsimp at ht hg hs
    subst ht
    subst hg
    exact ⟨r, hmem, hs⟩
  · rintro ⟨r, hmem, hs⟩
    refine ⟨(r, t), hmem, ?_⟩
    dsimp
    rw [hs]
    rfl

/-- The only table entry mapped to `CONNECTION_ACCESS_DENIED_ERROR`. -/
theorem custom_errors_accessDenied (r : Re) :
    (r, SupersetErrorType.CONNECTION_ACCESS_DENIED_ERROR) ∈
      MssqlEngineSpec.custom_errors ↔
      r = CONNECTION_ACCESS_DENIED_REGEX := by
  simp [MssqlEngineSpec.custom_errors]

/-- The only table entry mapped to `CONNECTION_INVALID_HOSTNAME_ERROR`. -/
theorem custom_errors_invalidHostname (r : Re) :
    (r, SupersetErrorType.CONNECTION_INVALID_HOSTNAME_ERROR) ∈
      MssqlEngineSpec.custom_errors ↔
      r = CONNECTION_INVALID_HOSTNAME_REGEX := by
  simp [MssqlEngineSpec.custom_errors]

/-- The only table entry mapped to `CONNECTION_PORT_CLOSED_ERROR`. -/
theorem custom_errors_portClosed (r : Re) :
    (r, SupersetErrorType.CONNECTION_PORT_CLOSED_ERROR) ∈
      MssqlEngineSpec.custom_errors ↔
      r = CONNECTION_PORT_CLOSED_REGEX := by
  simp [MssqlEngineSpec.custom_errors]

/-- The only table entry mapped to `CONNECTION_HOST_DOWN_ERROR`. -/
theorem custom_errors_hostDown (r : Re) :
    (r, SupersetErrorType.CONNECTION_HOST_DOWN_ERROR) ∈
      MssqlEngineSpec.custom_errors ↔
      r = CONNECTION_HOST_DOWN_REGEX := by
  simp [MssqlEngineSpec.custom_errors]

/-- A message is classified with error type `t` for some captures exactly
when the unique pattern mapped to `t` matches it. -/
theorem exists_mem_classify_iff (msg : String) (t : SupersetErrorType)
    (r : Re)
    (huniq : ∀ r', (r', t) ∈ MssqlEngineSpec.custom_errors ↔ r' = r) :
    (∃ g, (t, g) ∈ MssqlEngineSpec.classifyError msg) ↔
      (Re.search r msg).isSome = true := by
  rw [Option.isSome_iff_exists]
  constructor
  · rintro ⟨g, hg⟩
    obtain ⟨r', hr, hs⟩ := (mem_classifyError msg t g).mp hg
    rw [huniq] at hr
    subst hr
    exact ⟨g, hs⟩
  · rintro ⟨g, hs⟩
    exact ⟨g, (mem_classifyError msg t g).mpr ⟨r, (huniq r).mpr rfl, hs⟩⟩

/-- C3: error classification in the MSSQL engine spec is a regex dispatch
table.  A message is classified as access denied exactly when the literal
`Adaptive Server connection failed` occurs in it, as invalid hostname
(with the hostname in capture group 1) exactly when the unavailability
pattern with the negative `Net-Lib error` lookahead matches, as port
closed exactly when `Net-Lib error during Connection refused (61)` occurs,
and as host down exactly when `Net-Lib error during Operation timed out
(60)` occurs. -/
theorem mssql_error_classification (msg : String) :
    ((∃ g, (SupersetErrorType.CONNECTION_ACCESS_DENIED_ERROR, g) ∈
        MssqlEngineSpec.classifyError msg) ↔
      "Adaptive Server connection failed".toList <:+: msg.toList) ∧
    (∀ g, ((SupersetErrorType.CONNECTION_INVALID_HOSTNAME_ERROR, g) ∈
        MssqlEngineSpec.classifyError msg) ↔
      Re.search CONNECTION_INVALID_HOSTNAME_REGEX msg = some g) ∧
    ((∃ g, (SupersetErrorType.CONNECTION_PORT_CLOSED_ERROR, g) ∈
        MssqlEngineSpec.classifyError msg) ↔
      "Net-Lib error during Connection refused (61)".toList <:+:
        msg.toList) ∧
    ((∃ g, (SupersetErrorType.CONNECTION_HOST_DOWN_ERROR, g) ∈
        MssqlEngineSpec.classifyError msg) ↔
      "Net-Lib error during Operation timed out (60)".toList <:+:
        msg.toList) := by
  refine ⟨?_, ?_, ?_, ?_⟩
  · exact (exists_mem_classify_iff msg _ _ custom_errors_accessDenied).trans
      (search_litS_isSome "Adaptive Server connection failed" msg)
  · intro g
    rw [mem_classifyError]
    constructor
    · rintro ⟨r, hr, hs⟩
      rw [custom_errors_invalidHostname] at hr
      subst hr
      exact hs
    · intro hs
      exact ⟨_, (custom_errors_invalidHostname _).mpr rfl, hs⟩
  · exact (exists_mem_classify_iff msg _ _ custom_errors_portClosed).trans
      (search_litS_isSome "Net-Lib error during Connection refused (61)" msg)
  · exact (exists_mem_classify_iff msg _ _ custom_errors_hostDown).trans
      (search_litS_isSome "Net-Lib error during Operation timed out (60)" msg)

/-- Commit values of the empty trace. -/
theorem commitsOf_nil : commitsOf [] = [] := rfl

/-- Commit values distribute over trace concatenation. -/
theorem commitsOf_append (l₁ l₂ : List Ev) :
    commitsOf (l₁ ++ l₂) = commitsOf l₁ ++ commitsOf l₂ :=
  List.filterMap_append l₁ l₂ _

/-- A successful iteration records only log-failure and commit events, and
either commits nothing and keeps the stored progress, or commits exactly
its new, strictly larger stored progress. -/
theorem iterStep_inl {env : CursorEnv} {i : Nat} {pv : Option Nat}
    {q : Nat} {evs : List Ev} {pv' : Option Nat} {q' : Nat}
    (h : iterStep env i pv q = Sum.inl (evs, pv', q')) :
    ((commitsOf evs = [] ∧ q' = q) ∨ (commitsOf evs = [q'] ∧ q < q')) ∧
    (∀ e ∈ evs, e = Ev.getLogFailed ∨ ∃ p, e = Ev.commit p) := by
  rw [iterStep] at h
  split at h
  · injection h with h1
    injection h1 with he h2
    injection h2 with hp hq
    subst he
    subst hq
    refine ⟨Or.inl ⟨rfl, rfl⟩, ?_⟩
    intro e he
    rcases List.mem_singleton.mp he with rfl
    exact Or.inl rfl
  · injection h with h1
    injection h1 with he h2
    injection h2 with hp hq
    subst he
    subst hq
    exact ⟨Or.inl ⟨rfl, rfl⟩, by intro e he; simp at he⟩
  · split at h
    · injection h with h1
      injection h1 with he h2
      injection h2 with hp hq
      subst he
      subst hq
      exact ⟨Or.inl ⟨rfl, rfl⟩, by intro e he; simp at he⟩
    · split at h
      · exact absurd h (by simp)
      · rename_i p hpv
        split at h
        · injection h with h1
          injection h1 with he h2
          injection h2 with hp hq
          subst he
          subst hq
          rename_i hqp
          refine ⟨Or.inr ⟨rfl, hqp⟩, ?_⟩
          intro e he
          rcases List.mem_singleton.mp he with rfl
          exact Or.inr ⟨p, rfl⟩
        · injection h with h1
          injection h1 with he h2
          injection h2 with hp hq
          subst he
          subst hq
          exact ⟨Or.inl ⟨rfl, rfl⟩, by intro e he; simp at he⟩

/-- A raising iteration records exactly the unbound-progress event. -/
theorem iterStep_inr {env : CursorEnv} {i : Nat} {pv : Option Nat}
    {q : Nat} {evs : List Ev}
    (h : iterStep env i pv q = Sum.inr evs) :
    evs = [Ev.progressNameError] := by
  rw [iterStep] at h
  split at h
  · exact absurd h (by simp)
  · exact absurd h (by simp)
  · split at h
    · exact absurd h (by simp)
    · split at h
      · injection h with h1
        exact h1.symm
      · split at h
        · exact absurd h (by simp)
        · exact absurd h (by simp)

/-- Commit values pass over a leading refresh event. -/
theorem commitsOf_cons_refresh (i : Nat) (t : List Ev) :
    commitsOf (Ev.refresh i :: t) = commitsOf t := rfl

/-- Commit values of the sleep-then-poll tail pair. -/
theorem commitsOf_sleep_status (n : Nat) (r : PyResult String) :
    commitsOf [Ev.sleep n, Ev.statusCall r] = [] := rfl

/-- One successful loop iteration, unfolded: the refresh, the body events,
the sleep and the next status call, followed by the recursive rest when
the next status call returns. -/
theorem pollLoop_succ_inl (env : CursorEnv) (fuel i : Nat)
    (pv : Option Nat) (q : Nat) (s : String) (evs : List Ev)
    (pv' : Option Nat) (q' : Nat)
    (hs : unfinishedState s = true) (hc : env.extraCancel i = false)
    (hstep : iterStep env i pv q = Sum.inl (evs, pv', q')) :
    ImpalaEngineSpec.pollLoop env (fuel + 1) i pv q s =
      match env.status (i + 1) with
      | PyResult.raised =>
        (Ev.refresh i :: evs ++
          [Ev.sleep (env.pollIntervalCfg.getD 5),
           Ev.statusCall PyResult.raised],
         LoopEnd.raised PyExc.statusError)
      | PyResult.ok s' =>
        (Ev.refresh i :: evs ++
          [Ev.sleep (env.pollIntervalCfg.getD 5),
           Ev.statusCall (PyResult.ok s')] ++
          (ImpalaEngineSpec.pollLoop env fuel (i + 1) pv' q' s').1,
         (ImpalaEngineSpec.pollLoop env fuel (i + 1) pv' q' s').2) := by
  rw [ImpalaEngineSpec.pollLoop]
  simp only [hs, if_true, hc, Bool.false_eq_true, if_false]
  rw [hstep]

/-- A raising loop iteration, unfolded. -/
theorem pollLoop_succ_inr (env : CursorEnv) (fuel i : Nat)
    (pv : Option Nat) (q : Nat) (s : String) (evs : List Ev)
    (hs : unfinishedState s = true) (hc : env.extraCancel i = false)
    (hstep : iterStep env i pv q = Sum.inr evs) :
    ImpalaEngineSpec.pollLoop env (fuel + 1) i pv q s =
      (Ev.refresh i :: evs, LoopEnd.raised PyExc.nameError) := by
  rw [ImpalaEngineSpec.pollLoop]
  simp only [hs, if_true, hc, Bool.false_eq_true, if_false]
  rw [hstep]

/-- Along every run of the polling loop, the stored query progress strictly
precedes every committed value and the committed values strictly
increase. -/
theorem pollLoop_commits_chain (env : CursorEnv) :
    ∀ fuel i pv q s,
      List.Chain' (· < ·)
        (q :: commitsOf (ImpalaEngineSpec.pollLoop env fuel i pv q s).1) := by
  intro fuel
  induction fuel with
  | zero =>
    intro i pv q s
    rw [ImpalaEngineSpec.pollLoop]
    split <;> simp [commitsOf_nil]
  | succ fuel ih =>
    intro i pv q s
    by_cases hs : unfinishedState s = true
    · by_cases hc : env.extraCancel i = true
      · rw [ImpalaEngineSpec.pollLoop]
        simp only [hs, if_true, hc]
        have hz :
            commitsOf [Ev.refresh i, Ev.cancelOp, Ev.closeOp,
              Ev.closeCursor] = [] := rfl
        simp [hz]
      · rw [Bool.not_eq_true] at hc
        cases hstep : iterStep env i pv q with
        | inr evs =>
          rw [pollLoop_succ_inr env fuel i pv q s evs hs hc hstep,
            iterStep_inr hstep]
          have hz : commitsOf [Ev.refresh i, Ev.progressNameError] = [] := rfl
          simp [hz]
        | inl t3 =>
          obtain ⟨evs, pv', q'⟩ := t3
          rw [pollLoop_succ_inl env fuel i pv q s evs pv' q' hs hc hstep]
          cases hst : env.status (i + 1) with
          | raised =>
            have h1 : commitsOf (Ev.refresh i :: evs ++
                [Ev.sleep (env.pollIntervalCfg.getD 5),
                 Ev.statusCall PyResult.raised]) = commitsOf evs := by
              rw [commitsOf_append, commitsOf_cons_refresh,
                commitsOf_sleep_status, List.append_nil]
            rcases (iterStep_inl hstep).1 with ⟨hce, hqq⟩ | ⟨hce, hlt⟩
            · rw [h1, hce]
              simp
            · rw [h1, hce]
              exact List.chain'_pair.mpr hlt
          | ok s' =>
            have h1 : commitsOf (Ev.refresh i :: evs ++
                [Ev.sleep (env.pollIntervalCfg.getD 5),
                 Ev.statusCall (PyResult.ok s')] ++
                (ImpalaEngineSpec.pollLoop env fuel (i + 1) pv' q' s').1) =
                commitsOf evs ++
                  commitsOf
                    (ImpalaEngineSpec.pollLoop env fuel (i + 1) pv' q' s').1 := by
              rw [commitsOf_append, commitsOf_append, commitsOf_cons_refresh,
                commitsOf_sleep_status, List.append_nil]
            rcases (iterStep_inl hstep).1 with ⟨hce, hqq⟩ | ⟨hce, hlt⟩
            · subst hqq
              rw [h1, hce, List.nil_append]
              exact ih (i + 1) pv' q' s'
            · rw [h1, hce, List.singleton_append]
              exact List.chain'_cons.mpr ⟨hlt, ih (i + 1) pv' q' s'⟩
    · rw [Bool.not_eq_true] at hs
      rw [ImpalaEngineSpec.pollLoop]
      simp [hs, commitsOf_nil]

/-- The trace of `handle_cursor` is the trace of its `try` body: the
`except` handler only swallows the exception. -/
theorem handle_cursor_fst (env : CursorEnv) (fuel initProgress : Nat) :
    (ImpalaEngineSpec.handle_cursor env fuel initProgress).1 =
      (ImpalaEngineSpec.handle_cursor_try env fuel initProgress).1 := by
  have h : ∀ x : List Ev × LoopEnd,
      (match x.2 with
       | LoopEnd.raised _ => (x.1, PyResult.ok ())
       | _ => (x.1, PyResult.ok ())).1 = x.1 := by
    rintro ⟨t, e⟩
    cases e <;> rfl
  exact h (ImpalaEngineSpec.handle_cursor_try env fuel initProgress)

/-- C8: progress is monotonically non-decreasing during polling.  Along
every execution of `handle_cursor`, the committed progress values strictly
increase and each strictly exceeds the query progress stored before it, so
the stored progress never decreases and is written only when the parsed
value is strictly greater. -/
theorem impala_progress_monotone (env : CursorEnv)
    (fuel initProgress : Nat) :
    List.Chain' (· < ·)
      (initProgress ::
        commitsOf (ImpalaEngineSpec.handle_cursor env fuel initProgress).1) := by
  rw [handle_cursor_fst]
  rw [ImpalaEngineSpec.handle_cursor_try]
  cases hst : env.status 0 with
  | raised =>
    have hz : commitsOf [Ev.statusCall PyResult.raised] = [] := rfl
    rw [hz]
    simp
  | ok s =>
    have h1 : commitsOf (Ev.statusCall (PyResult.ok s) ::
        (ImpalaEngineSpec.pollLoop env fuel 0 none initProgress s).1) =
        commitsOf (ImpalaEngineSpec.pollLoop env fuel 0 none initProgress s).1 :=
      rfl
    rw [h1]
    exact pollLoop_commits_chain env fuel 0 none initProgress s

/-- Environment whose first status poll raises. -/
def envStatusRaise : CursorEnv :=
  { status := fun _ => PyResult.raised
    getLog := fun _ => PyResult.ok none
    extraCancel := fun _ => false
    pollIntervalCfg := none }

/-- Environment whose running query produces a non-empty log line that the
progress regex rejects, so the first iteration hits the unbound local
`progress`. -/
def envProgressUnbound : CursorEnv :=
  { status := fun _ => PyResult.ok "RUNNING_STATE"
    getLog := fun _ => PyResult.ok (some "no progress in this line")
    extraCancel := fun _ => false
    pollIntervalCfg := none }

/-- C9: `handle_cursor` never propagates an exception.  Every run returns
normally; in particular a first status poll that raises, and a running
query whose non-empty log fails the progress regex before any assignment
to the local `progress` (the `UnboundLocalError`), both raise inside the
`try` body and are caught by the surrounding handler. -/
theorem impala_handle_cursor_no_raise :
    (∀ env fuel p,
      (ImpalaEngineSpec.handle_cursor env fuel p).2 = PyResult.ok ()) ∧
    (ImpalaEngineSpec.handle_cursor_try envStatusRaise 3 0).2 =
      LoopEnd.raised PyExc.statusError ∧
    (ImpalaEngineSpec.handle_cursor_try envProgressUnbound 3 0).2 =
      LoopEnd.raised PyExc.nameError := by
  refine ⟨?_, ?_, ?_⟩
  · intro env fuel p
    have h : ∀ x : List Ev × LoopEnd,
        (match x.2 with
         | LoopEnd.raised _ => (x.1, PyResult.ok ())
         | _ => (x.1, PyResult.ok ())).2 = PyResult.ok () := by
      rintro ⟨t, e⟩
      cases e <;> rfl
    exact h (ImpalaEngineSpec.handle_cursor_try env fuel p)
  · decide
  · decide

/-- Counterexample to C4 as stated: with the cursor status
`RUNNING_STATE` (an unfinished state) and no early-cancel request, the
first iteration performs no further sleep or status poll at all — the
non-empty log fails the progress regex, the unbound local `progress`
raises, and the loop ends — so another poll is not performed "while" the
status is unfinished. -/
theorem impala_poll_iff_unfinished_cex :
    unfinishedState "RUNNING_STATE" = true ∧
    envProgressUnbound.extraCancel 0 = false ∧
    ImpalaEngineSpec.pollLoop envProgressUnbound 5 0 none 0 "RUNNING_STATE" =
      ([Ev.refresh 0, Ev.progressNameError],
        LoopEnd.raised PyExc.nameError) := by
  refine ⟨rfl, rfl, ?_⟩
  decide

/-- C4 (amended): the Impala cursor poll loop is a small state poll.
Provided the iteration raises no exception, another status poll preceded
by a sleep of the configured interval is performed while and only while
the cursor status is `INITIALIZED_STATE` or `RUNNING_STATE`; when the
extra data of the query carries the early-cancel key, the cursor operation is
cancelled, closed, and polling stops immediately without a further poll;
on an exception (the unbound `progress` local) polling also stops with no
further poll. -/
theorem impala_poll_iff_unfinished (env : CursorEnv) (fuel i : Nat)
    (progressVar : Option Nat) (qprog : Nat) (s : String) :
    (unfinishedState s = false →
      ImpalaEngineSpec.pollLoop env (fuel + 1) i progressVar qprog s =
        ([], LoopEnd.finishedState)) ∧
    (unfinishedState s = true → env.extraCancel i = true →
      ImpalaEngineSpec.pollLoop env (fuel + 1) i progressVar qprog s =
        ([Ev.refresh i, Ev.cancelOp, Ev.closeOp, Ev.closeCursor],
          LoopEnd.cancelled)) ∧
    (∀ evs pv' q', unfinishedState s = true → env.extraCancel i = false →
      iterStep env i progressVar qprog = Sum.inl (evs, pv', q') →
      (∃ rest,
        (ImpalaEngineSpec.pollLoop env (fuel + 1) i progressVar qprog s).1 =
          Ev.refresh i :: evs ++
            Ev.sleep (env.pollIntervalCfg.getD 5) ::
            Ev.statusCall (env.status (i + 1)) :: rest) ∧
      (∀ e ∈ evs, e = Ev.getLogFailed ∨ ∃ p, e = Ev.commit p)) ∧
    (∀ evs, unfinishedState s = true → env.extraCancel i = false →
      iterStep env i progressVar qprog = Sum.inr evs →
      ImpalaEngineSpec.pollLoop env (fuel + 1) i progressVar qprog s =
        (Ev.refresh i :: evs, LoopEnd.raised PyExc.nameError)) := by
  refine ⟨?_, ?_, ?_, ?_⟩
  · intro hs
    rw [ImpalaEngineSpec.pollLoop]
    simp [hs]
  · intro hs hc
    rw [ImpalaEngineSpec.pollLoop]
    simp [hs, hc]
  · intro evs pv' q' hs hc hstep
    refine ⟨?_, (iterStep_inl hstep).2⟩
    rw [pollLoop_succ_inl env fuel i progressVar qprog s evs pv' q' hs hc
      hstep]
    cases hst : env.status (i + 1) with
    | raised =>
      refine ⟨[], ?_⟩
      simp
    | ok s' =>
      refine ⟨(ImpalaEngineSpec.pollLoop env fuel (i + 1) pv' q' s').1, ?_⟩
      simp
  · intro evs hs hc hstep
    exact pollLoop_succ_inr env fuel i progressVar qprog s evs hs hc hstep

/-- Environment for the C4 witness: a running cursor with an empty log and
a configured two-second poll interval. -/
def envPollW : CursorEnv :=
  { status := fun _ => PyResult.ok "RUNNING_STATE"
    getLog := fun _ => PyResult.ok none
    extraCancel := fun _ => false
    pollIntervalCfg := some 2 }

/-- Witness for C4 (amended) at concrete environments: a finished status
stops the loop at once, and a running status leads to a sleep of the
configured interval followed by another status poll. -/
theorem impala_poll_iff_unfinished_witness :
    ImpalaEngineSpec.pollLoop envPollW 3 0 none 0 "FINISHED_STATE" =
      ([], LoopEnd.finishedState) ∧
    (∃ rest,
      (ImpalaEngineSpec.pollLoop envPollW 3 0 none 0 "RUNNING_STATE").1 =
        Ev.refresh 0 :: [] ++
          Ev.sleep 2 :: Ev.statusCall (PyResult.ok "RUNNING_STATE") :: rest) :=
  ⟨(impala_poll_iff_unfinished envPollW 2 0 none 0 "FINISHED_STATE").1
      (by decide),
   ((impala_poll_iff_unfinished envPollW 2 0 none 0 "RUNNING_STATE").2.2.1
      [] none 0 (by decide) (by decide) (by decide)).1⟩
